import Mathlib

/-!
Shallow embedding of the CosmoCalc single-page application controller.

The data model mirrors `src/types.ts`; the controller logic mirrors the
`App` component in the main source file: `runCalculation`, `handleClear`,
the log accumulator `addLog`, the detection-outlook ternary, and the
tensor-index stat-card value.  JavaScript numbers are modelled as `ℚ`
(the claims only exercise comparisons and exact field transport), and the
wall-clock timestamps prepended to log lines are passed in as explicit
string parameters.  The asynchronous `runCalculation` is split into its
synchronous prefix `runStart` (everything executed before the `await` of
the network call) and `runFinish` (the continuation applied to the
request outcome).
-/

namespace CosmoCalc

/-- `CalculationStatus` from `src/types.ts`. -/
inductive CalculationStatus where
  | IDLE
  | DERIVING
  | CALCULATING
  | SUCCESS
  | ERROR
  deriving DecidableEq

/-- `ObservableResult` from `src/types.ts`. -/
structure ObservableResult where
  ns : ℚ
  r : ℚ
  As : ℚ
  nt : ℚ
  alpha_s : ℚ
  deriving DecidableEq

/-- `SpectrumPoint` from `src/types.ts`. -/
structure SpectrumPoint where
  k : ℚ
  scalar : ℚ
  tensor : ℚ
  deriving DecidableEq

/-- `DerivationStep` from `src/types.ts` (`equation` is optional). -/
structure DerivationStep where
  title : String
  content : String
  equation : Option String
  deriving DecidableEq

/-- `CalculationResponse` from `src/types.ts`. -/
structure CalculationResponse where
  theoryName : String
  potentialForm : String
  derivationSteps : List DerivationStep
  observables : ObservableResult
  spectrumData : List SpectrumPoint
  interpretation : String
  deriving DecidableEq

/-- The five state slots held by the `App` component:
`input`, `status`, `result`, `logs`, `error`. -/
structure AppState where
  input : String
  status : CalculationStatus
  result : Option CalculationResponse
  logs : List String
  error : Option String
  deriving DecidableEq

/-- The initial values passed to the five `useState` hooks. -/
def initialState : AppState :=
  { input := ""
    status := CalculationStatus.IDLE
    result := none
    logs := []
    error := none }

/-- The ECMAScript `WhiteSpace` and `LineTerminator` code points stripped
by `String.prototype.trim`, which the source calls as `input.trim()`. -/
def isJsWhitespace (c : Char) : Bool :=
  let n := c.toNat
  n == 9 || n == 10 || n == 11 || n == 12 || n == 13 || n == 32 || n == 160 ||
  n == 5760 || (decide (8192 ≤ n) && decide (n ≤ 8202)) || n == 8232 ||
  n == 8233 || n == 8239 || n == 8287 || n == 12288 || n == 65279

/-- JavaScript `String.prototype.trim`: strip leading and trailing
whitespace. -/
def jsTrim (s : String) : String :=
  String.mk (((s.toList.dropWhile isJsWhitespace).reverse.dropWhile
    isJsWhitespace).reverse)

/-- JavaScript `Number.prototype.toFixed(digits)`: fixed-point decimal
rendering with `digits` fractional digits, modelled over `ℚ` with
round-to-nearest. -/
def toFixed (digits : Nat) (q : ℚ) : String :=
  let n : ℤ := round (q * ((10 : ℤ) ^ digits : ℤ))
  let sign : String := if n < 0 then "-" else ""
  let a : ℕ := n.natAbs
  let ip : ℕ := a / 10 ^ digits
  let fp : ℕ := a % 10 ^ digits
  let fpStr : String := toString fp
  if digits = 0 then sign ++ toString ip
  else sign ++ toString ip ++ "." ++
    String.mk (List.replicate (digits - fpStr.length) '0') ++ fpStr

/-- `addLog`: append one timestamped line to the log list; the timestamp
`t` stands for `new Date().toLocaleTimeString()`. -/
def addLog (t msg : String) (s : AppState) : AppState :=
  { s with logs := s.logs ++ ["[" ++ t ++ "] " ++ msg] }

/-- First log line of a run. -/
def initLogMsg : String := "Initializing Cosmological Agent..."

/-- Second log line of a run (`input.substring(0, 50)`). -/
def targetLogMsg (input : String) : String :=
  "Targeting Theory: " ++ input.take 50 ++ "..."

/-- Third log line of a run, emitted inside `try` before the `await`. -/
def parseLogMsg : String := "Parsing action and deriving slow-roll parameters..."

/-- Log line appended after a successful parse. -/
def completeLogMsg : String :=
  "Calculations complete. Validating results against Planck/BICEP constraints..."

/-- Summary log line appended after a successful parse. -/
def summaryLogMsg (d : CalculationResponse) : String :=
  "Result: r=" ++ toFixed 4 d.observables.r ++ ", ns=" ++
    toFixed 4 d.observables.ns

/-- Log line appended in the `catch` handler. -/
def errorLogMsg : String := "ERROR: Physical model validation failed."

/-- The fixed fallback message of `err.message || "..."`. -/
def fallbackErrorMsg : String :=
  "Failed to process the theory. Ensure the input describes a valid physical model."

/-- Outcome of the awaited request-plus-parse: either a parsed
`CalculationResponse`, or a thrown error whose `message` property is
absent (`none`), empty (`some ""`), or a non-empty string. -/
inductive RunOutcome where
  | success (data : CalculationResponse)
  | failure (message : Option String)

/-- `err.message || fallback`: the displayed error string. -/
def errMessage (m : Option String) : String :=
  match m with
  | some msg => if msg = "" then fallbackErrorMsg else msg
  | none => fallbackErrorMsg

/-- The synchronous prefix of `runCalculation`, executed before the
`await`: set status to `DERIVING`, clear the error, reset the logs, and
append the three initializing log lines. -/
def runStart (t1 t2 t3 : String) (s : AppState) : AppState :=
  addLog t3 parseLogMsg (addLog t2 (targetLogMsg s.input) (addLog t1 initLogMsg
    { s with status := CalculationStatus.DERIVING, error := none, logs := [] }))

/-- The continuation of `runCalculation` applied to the request outcome:
the tail of the `try` block on success, the `catch` handler on failure. -/
def runFinish (t4 t5 : String) (o : RunOutcome) (s : AppState) : AppState :=
  match o with
  | RunOutcome.success d =>
      { addLog t5 (summaryLogMsg d)
          (addLog t4 completeLogMsg { s with result := some d }) with
        status := CalculationStatus.SUCCESS }
  | RunOutcome.failure m =>
      addLog t4 errorLogMsg
        { s with error := some (errMessage m), status := CalculationStatus.ERROR }

/-- `runCalculation`: no-op when the trimmed input is empty, otherwise the
synchronous prefix followed by the continuation on the outcome. -/
def runCalculation (t1 t2 t3 t4 t5 : String) (o : RunOutcome) (s : AppState) :
    AppState :=
  if jsTrim s.input = "" then s
  else runFinish t4 t5 o (runStart t1 t2 t3 s)

/-- `handleClear`: reset all five state slots to their initial values. -/
def handleClear (s : AppState) : AppState :=
  { s with input := ""
           result := none
           status := CalculationStatus.IDLE
           logs := []
           error := none }

/-- Sentence A of the detection outlook (`r > 0.01`). -/
def outlookA : String :=
  "Likely detectable by next-gen ground arrays (Simons Observatory, CMBS4)."

/-- Sentence B of the detection outlook (`r > 0.001` after A fails). -/
def outlookB : String :=
  "At the threshold of sensitivity for LiteBIRD space mission."

/-- Sentence C of the detection outlook (final else). -/
def outlookC : String :=
  "Potentially beyond current near-term detection limits; requires highly optimized B-mode search."

/-- The nested ternary selecting the detection-outlook sentence from
`result.observables.r`. -/
def detectionOutlook (r : ℚ) : String :=
  if r > 1 / 100 then outlookA
  else if r > 1 / 1000 then outlookB
  else outlookC

/-- The Tensor Index stat-card value:
`result.observables.nt ? result.observables.nt.toFixed(4) : "—"`.
JavaScript number truthiness makes `0` select the placeholder. -/
def tensorIndexValue (o : ObservableResult) : String :=
  if o.nt ≠ 0 then toFixed 4 o.nt else "—"

/-- States reachable from the initial state through the user-facing
actions: editing the input (`setInput` via the textarea), clearing, a
completed run with some outcome, and the transient mid-run state left by
the synchronous prefix of a run on non-empty input. -/
inductive Reachable : AppState → Prop where
  | init : Reachable initialState
  | setInput (s : AppState) (v : String) :
      Reachable s → Reachable { s with input := v }
  | clear (s : AppState) : Reachable s → Reachable (handleClear s)
  | runPending (s : AppState) (t1 t2 t3 : String) :
      Reachable s → jsTrim s.input ≠ "" → Reachable (runStart t1 t2 t3 s)
  | run (s : AppState) (t1 t2 t3 t4 t5 : String) (o : RunOutcome) :
      Reachable s → Reachable (runCalculation t1 t2 t3 t4 t5 o s)

/-- Sample parsed response used for concrete executions. -/
def sampleResponse : CalculationResponse :=
  { theoryName := "Starobinsky"
    potentialForm := "V(phi)"
    derivationSteps := [{ title := "Potential", content := "...", equation := none }]
    observables := { ns := 965 / 1000, r := 3 / 1000, As := 21 / 10 ^ 10,
                     nt := 0, alpha_s := 0 }
    spectrumData := [{ k := 1 / 20, scalar := 21 / 10 ^ 10, tensor := 63 / 10 ^ 13 }]
    interpretation := "plateau" }

/-- State after typing a theory and running once, successfully. -/
def goodState : AppState :=
  runCalculation "a" "b" "c" "d" "e" (RunOutcome.success sampleResponse)
    { initialState with input := "Starobinsky Inflation" }

/-- State after a failed re-run on top of `goodState`. -/
def staleState : AppState :=
  runCalculation "f" "g" "h" "i" "j" (RunOutcome.failure none) goodState

/-- Claim C1 fails on the code: after a successful run, a failed re-run
leaves the previous result stored while the status is `ERROR`, so a
reachable state has a non-null result with a status other than
`SUCCESS`. -/
theorem C1_counterexample :
    Reachable staleState ∧ staleState.result ≠ none ∧
      staleState.status ≠ CalculationStatus.SUCCESS :=
  ⟨Reachable.run goodState "f" "g" "h" "i" "j" (RunOutcome.failure none)
      (Reachable.run { initialState with input := "Starobinsky Inflation" }
        "a" "b" "c" "d" "e" (RunOutcome.success sampleResponse)
        (Reachable.setInput initialState "Starobinsky Inflation" Reachable.init)),
   ne_of_eq_of_ne (show staleState.result = some sampleResponse from rfl)
     (Option.some_ne_none sampleResponse),
   by decide⟩

/-- Claim C1 (amended): in every reachable application state, if the
status is `SUCCESS` then the stored `CalculationResponse` result is
non-null.  (The converse direction of the original claim is refuted by
`C1_counterexample`.) -/
theorem C1_success_result_nonnull (s : AppState) (h : Reachable s) :
    s.status = CalculationStatus.SUCCESS → s.result ≠ none := by
  induction h with
  | init => intro hs; exact absurd hs (by decide)
  | setInput s v hr ih => intro hs; exact ih hs
  | clear s hr ih => intro hs; simp [handleClear] at hs
  | runPending s t1 t2 t3 hr hne ih =>
      intro hs; simp [runStart, addLog] at hs
  | run s t1 t2 t3 t4 t5 o hr ih =>
      intro hs
      by_cases he : jsTrim s.input = ""
      · simp only [runCalculation, if_pos he] at hs ⊢
        exact ih hs
      · cases o with
        | success d =>
            simp [runCalculation, if_neg he, runFinish, addLog]
        | failure m =>
            simp [runCalculation, if_neg he, runFinish, addLog] at hs

/-- Witness for `C1_success_result_nonnull` at a concrete reachable
successful state. -/
theorem C1_witness : goodState.result ≠ none :=
  C1_success_result_nonnull goodState
    (Reachable.run { initialState with input := "Starobinsky Inflation" }
      "a" "b" "c" "d" "e" (RunOutcome.success sampleResponse)
      (Reachable.setInput initialState "Starobinsky Inflation" Reachable.init))
    (by decide)

/-- Claim C2: the detection-outlook sentence is a pure function of the
returned `r` with exactly two decision boundaries: `r > 0.01` selects
sentence A (ground arrays), `0.001 < r ≤ 0.01` selects sentence B
(LiteBIRD), `r ≤ 0.001` selects sentence C (beyond near-term limits);
in particular `r = 0.01` selects B and `r = 0.001` selects C. -/
theorem C2_outlook_trichotomy (r : ℚ) :
    (1 / 100 < r → detectionOutlook r = outlookA) ∧
    (1 / 1000 < r → r ≤ 1 / 100 → detectionOutlook r = outlookB) ∧
    (r ≤ 1 / 1000 → detectionOutlook r = outlookC) ∧
    detectionOutlook (1 / 100) = outlookB ∧
    detectionOutlook (1 / 1000) = outlookC := by
  refine ⟨fun h1 => ?_, fun h1 h2 => ?_, fun h1 => ?_, ?_, ?_⟩
  · unfold detectionOutlook
    split_ifs with ha hb <;>
      first
        | rfl
        | exact absurd h1 ha
  · unfold detectionOutlook
    split_ifs with ha hb <;>
      first
        | rfl
        | exact absurd ha (not_lt.mpr h2)
        | exact absurd h1 hb
  · unfold detectionOutlook
    split_ifs with ha hb <;>
      first
        | rfl
        | exact absurd ha (not_lt.mpr (h1.trans (by norm_num)))
        | exact absurd hb (not_lt.mpr h1)
  · norm_num [detectionOutlook]
  · norm_num [detectionOutlook]

/-- Witness for `C2_outlook_trichotomy`: one concrete `r` in each of the
three regions. -/
theorem C2_witness :
    detectionOutlook (2 / 100) = outlookA ∧
    detectionOutlook (5 / 1000) = outlookB ∧
    detectionOutlook (1 / 2000) = outlookC :=
  ⟨(C2_outlook_trichotomy (2 / 100)).1 (by norm_num),
   (C2_outlook_trichotomy (5 / 1000)).2.1 (by norm_num) (by norm_num),
   (C2_outlook_trichotomy (1 / 2000)).2.2.1 (by norm_num)⟩

/-- Claim C3: for every input that is non-empty after trimming, invoking
the run action from status Idle, Success, or Error executes, before the
external request resolves, a synchronous prefix that sets status to
`DERIVING`, clears the error, and resets the log list before appending
the initializing log lines. -/
theorem C3_run_sync_prefix (s : AppState) (t1 t2 t3 t4 t5 : String)
    (o : RunOutcome) (hne : jsTrim s.input ≠ "")
    (hst : s.status = CalculationStatus.IDLE ∨
      s.status = CalculationStatus.SUCCESS ∨
      s.status = CalculationStatus.ERROR) :
    runCalculation t1 t2 t3 t4 t5 o s =
      runFinish t4 t5 o (runStart t1 t2 t3 s) ∧
    (runStart t1 t2 t3 s).status = CalculationStatus.DERIVING ∧
    (runStart t1 t2 t3 s).error = none ∧
    (runStart t1 t2 t3 s).logs =
      ["[" ++ t1 ++ "] " ++ initLogMsg,
       "[" ++ t2 ++ "] " ++ targetLogMsg s.input,
       "[" ++ t3 ++ "] " ++ parseLogMsg] := by
  refine ⟨?_, rfl, rfl, rfl⟩
  simp [runCalculation, hne]

/-- Witness for `C3_run_sync_prefix` at a concrete Idle state with
non-empty input. -/
theorem C3_witness :
    runCalculation "t1" "t2" "t3" "t4" "t5" (RunOutcome.failure none)
        { initialState with input := "Starobinsky" } =
      runFinish "t4" "t5" (RunOutcome.failure none)
        (runStart "t1" "t2" "t3" { initialState with input := "Starobinsky" }) ∧
    (runStart "t1" "t2" "t3"
        { initialState with input := "Starobinsky" }).status =
      CalculationStatus.DERIVING ∧
    (runStart "t1" "t2" "t3"
        { initialState with input := "Starobinsky" }).error = none ∧
    (runStart "t1" "t2" "t3" { initialState with input := "Starobinsky" }).logs =
      ["[" ++ "t1" ++ "] " ++ initLogMsg,
       "[" ++ "t2" ++ "] " ++ targetLogMsg "Starobinsky",
       "[" ++ "t3" ++ "] " ++ parseLogMsg] :=
  C3_run_sync_prefix { initialState with input := "Starobinsky" }
    "t1" "t2" "t3" "t4" "t5" (RunOutcome.failure none) (by decide) (Or.inl rfl)

/-- Claim C4: for every input that is empty or whitespace-only, invoking
the run action is a no-op: the whole state (status, logs, result, error)
is unchanged. -/
theorem C4_empty_run_noop (s : AppState) (t1 t2 t3 t4 t5 : String)
    (o : RunOutcome) (he : jsTrim s.input = "") :
    runCalculation t1 t2 t3 t4 t5 o s = s := by
  simp [runCalculation, he]

/-- Witness for `C4_empty_run_noop` at a concrete whitespace-only
input. -/
theorem C4_witness :
    runCalculation "t1" "t2" "t3" "t4" "t5" (RunOutcome.failure none)
      { initialState with input := " \t " } =
      { initialState with input := " \t " } :=
  C4_empty_run_noop { initialState with input := " \t " }
    "t1" "t2" "t3" "t4" "t5" (RunOutcome.failure none) (by decide)

/-- Claim C5: when the remote reply parses successfully, the run action
sets status to `SUCCESS`, stores exactly the parsed response as the
result, and appends the summary log line. -/
theorem C5_success_stores_result (s : AppState) (t1 t2 t3 t4 t5 : String)
    (d : CalculationResponse) (hne : jsTrim s.input ≠ "") :
    (runCalculation t1 t2 t3 t4 t5 (RunOutcome.success d) s).status =
      CalculationStatus.SUCCESS ∧
    (runCalculation t1 t2 t3 t4 t5 (RunOutcome.success d) s).result = some d ∧
    (runCalculation t1 t2 t3 t4 t5 (RunOutcome.success d) s).logs =
      (runStart t1 t2 t3 s).logs ++
        ["[" ++ t4 ++ "] " ++ completeLogMsg,
         "[" ++ t5 ++ "] " ++ summaryLogMsg d] := by
  refine ⟨?_, ?_, ?_⟩ <;> simp [runCalculation, hne, runFinish, addLog]

/-- Witness for `C5_success_stores_result` at a concrete input and
response. -/
theorem C5_witness :
    goodState.status = CalculationStatus.SUCCESS ∧
    goodState.result = some sampleResponse ∧
    goodState.logs =
      (runStart "a" "b" "c"
          { initialState with input := "Starobinsky Inflation" }).logs ++
        ["[" ++ "d" ++ "] " ++ completeLogMsg,
         "[" ++ "e" ++ "] " ++ summaryLogMsg sampleResponse] :=
  C5_success_stores_result { initialState with input := "Starobinsky Inflation" }
    "a" "b" "c" "d" "e" sampleResponse (by decide)

/-- Claim C6: on any failure of a run, the result slot is not modified:
a previously stored successful result remains unchanged alongside the
`ERROR` status. -/
theorem C6_failure_preserves_result (s : AppState) (t1 t2 t3 t4 t5 : String)
    (m : Option String) (hne : jsTrim s.input ≠ "") :
    (runCalculation t1 t2 t3 t4 t5 (RunOutcome.failure m) s).result =
      s.result ∧
    (runCalculation t1 t2 t3 t4 t5 (RunOutcome.failure m) s).status =
      CalculationStatus.ERROR := by
  constructor <;> simp [runCalculation, hne, runFinish, runStart, addLog]

/-- Witness for `C6_failure_preserves_result`: a failed re-run on top of
a stored successful result. -/
theorem C6_witness :
    staleState.result = goodState.result ∧
    staleState.status = CalculationStatus.ERROR :=
  C6_failure_preserves_result goodState "f" "g" "h" "i" "j" none (by decide)

/-- Claim C7: on any failure of a run, status becomes `ERROR`, the
stored error equals the thrown error's message when that message is
non-empty and otherwise the fixed fallback string, and an error log line
is appended. -/
theorem C7_failure_error_message (s : AppState) (t1 t2 t3 t4 t5 : String)
    (m : Option String) (hne : jsTrim s.input ≠ "") :
    (runCalculation t1 t2 t3 t4 t5 (RunOutcome.failure m) s).status =
      CalculationStatus.ERROR ∧
    (runCalculation t1 t2 t3 t4 t5 (RunOutcome.failure m) s).error =
      some (errMessage m) ∧
    (∀ msg : String, msg ≠ "" → errMessage (some msg) = msg) ∧
    errMessage none = fallbackErrorMsg ∧
    errMessage (some "") = fallbackErrorMsg ∧
    (runCalculation t1 t2 t3 t4 t5 (RunOutcome.failure m) s).logs =
      (runStart t1 t2 t3 s).logs ++ ["[" ++ t4 ++ "] " ++ errorLogMsg] := by
  refine ⟨?_, ?_, fun msg hmsg => ?_, rfl, rfl, ?_⟩
  · simp [runCalculation, hne, runFinish, addLog]
  · simp [runCalculation, hne, runFinish, addLog]
  · simp [errMessage, hmsg]
  · simp [runCalculation, hne, runFinish, addLog]

/-- Witness for `C7_failure_error_message`: a failure carrying the
message "network timeout". -/
theorem C7_witness :
    (runCalculation "f" "g" "h" "i" "j"
        (RunOutcome.failure (some "network timeout")) goodState).status =
      CalculationStatus.ERROR ∧
    (runCalculation "f" "g" "h" "i" "j"
        (RunOutcome.failure (some "network timeout")) goodState).error =
      some (errMessage (some "network timeout")) ∧
    errMessage (some "network timeout") = "network timeout" := by
  have h := C7_failure_error_message goodState "f" "g" "h" "i" "j"
    (some "network timeout") (by decide)
  exact ⟨h.1, h.2.1, h.2.2.1 "network timeout" (by decide)⟩

/-- Claim C8: for every prior state, the clear action resets input to
the empty string, result to null, logs to the empty list, error to null,
and status to Idle. -/
theorem C8_clear_resets (s : AppState) :
    handleClear s =
      { input := ""
        status := CalculationStatus.IDLE
        result := none
        logs := []
        error := none } := rfl

/-- Claim C9: the status `CALCULATING` is declared in the
`CalculationStatus` enumeration but never assigned by the controller:
no state reachable from the initial Idle state through the user-facing
actions has status `CALCULATING`. -/
theorem C9_never_calculating (s : AppState) (h : Reachable s) :
    s.status ≠ CalculationStatus.CALCULATING := by
  induction h with
  | init => decide
  | setInput s v hr ih => exact ih
  | clear s hr ih => intro hs; simp [handleClear] at hs
  | runPending s t1 t2 t3 hr hne ih =>
      intro hs; simp [runStart, addLog] at hs
  | run s t1 t2 t3 t4 t5 o hr ih =>
      by_cases he : jsTrim s.input = ""
      · simp only [runCalculation, if_pos he]
        exact ih
      · cases o with
        | success d =>
            intro hs
            simp [runCalculation, if_neg he, runFinish, addLog] at hs
        | failure m =>
            intro hs
            simp [runCalculation, if_neg he, runFinish, addLog] at hs

/-- Witness for `C9_never_calculating` at the initial state. -/
theorem C9_witness : initialState.status ≠ CalculationStatus.CALCULATING :=
  C9_never_calculating initialState Reachable.init

/-- Claim C10: when a successful result has `observables.nt = 0`, the
Tensor Index stat card displays the placeholder dash (JavaScript
truthiness, not presence, is tested); for every non-zero `nt` it
displays `nt` formatted to four decimal places. -/
theorem C10_tensor_index_card (o : ObservableResult) :
    (o.nt = 0 → tensorIndexValue o = "—") ∧
    (o.nt ≠ 0 → tensorIndexValue o = toFixed 4 o.nt) := by
  constructor <;> intro h <;> simp [tensorIndexValue, h]

/-- Witness for `C10_tensor_index_card`: `nt = 0` shows the placeholder,
`nt = 1` shows the formatted value. -/
theorem C10_witness :
    tensorIndexValue sampleResponse.observables = "—" ∧
    tensorIndexValue { sampleResponse.observables with nt := 1 } =
      toFixed 4 ({ sampleResponse.observables with nt := 1 } : ObservableResult).nt :=
  ⟨(C10_tensor_index_card sampleResponse.observables).1 rfl,
   (C10_tensor_index_card { sampleResponse.observables with nt := 1 }).2
     one_ne_zero⟩

end CosmoCalc
